import Mathlib

/-!
# SqlConnectionPool: a shallow embedding of the dispatch and recovery logic

The development embeds `SqlConnectionPool.h` / `SqlConnectionPool.cpp`:

* `SqlConnectionHandler` (`checkConnection`, `doQeury`, `doQuery`, `initHandler`,
  `releaseHandler`, `open`, `prepareArgs`),
* `SqlConnection` (constructor, `query`, `setAutoOpenInterval`),
* `SqlConnectionPool` (constructor, `query`).

The Qt SQL driver and the clock are external.  Whatever they answer during one
call is collected in a `Driver` value, so a sequence of calls may see a
different driver behaviour at every call.  A blocking queued signal is embedded
as a direct call of the connected slot: the caller gets the slot's outputs when
the slot has returned.
-/

namespace SqlPool

/-! ## Qt value types -/

/-- Kinds of `QSqlError`; `NoError` is the kind of a default constructed error. -/
inductive ErrorType where
  | NoError
  | ConnectionError
  | StatementError
  | TransactionError
  | UnknownError
deriving DecidableEq, Repr

/-- A `QSqlError`: its kind and the driver's text. -/
structure QSqlError where
  type : ErrorType
  text : String
deriving DecidableEq, Repr

/-- The default constructed `QSqlError()`. -/
def QSqlError.none : QSqlError := { type := ErrorType.NoError, text := "" }

/-- `QSqlError::isValid()`: the error carries an actual error kind. -/
def QSqlError.isValid (e : QSqlError) : Bool :=
  decide (e.type ≠ ErrorType.NoError)

/-- A `QVariant`, as far as the pool passes it around. -/
inductive QVariant where
  | invalid
  | int (v : Int)
  | string (s : String)
deriving DecidableEq, Repr

/-- A `QSqlRecord`: the fields of one row, in column order. -/
abbrev SqlRecord := List (String × QVariant)

/-- The typedef `QVector<SqlRecord>`. -/
abbrev SqlRecords := List SqlRecord

/-- A `QDateTime`: `none` is the invalid (default constructed) value, `some t` is
the instant `t` milliseconds after the epoch.  The clock may step backwards, so
no order between successive readings is assumed. -/
abbrev QDateTime := Option Int

/-- `QDateTime::isValid()`. -/
def QDateTime.isValid (t : QDateTime) : Bool := t.isSome

/-- `QDateTime::addMSecs(ms)`; an invalid value stays invalid. -/
def QDateTime.addMSecs (t : QDateTime) (ms : Int) : QDateTime :=
  t.map (fun x => x + ms)

/-- The comparison `a > b` of two `QDateTime`s.  The source only evaluates it
with a valid left operand (it is guarded by `isValid() &&`) and the current
time on the right; on other operands the embedding answers `false`. -/
def QDateTime.gt (a b : QDateTime) : Bool :=
  match a, b with
  | some x, some y => decide (y < x)
  | _, _ => false

/-- A `QSqlDatabase` handle as the handler observes it. -/
structure QSqlDatabase where
  driverName : String
  connectionName : String
  databaseName : String
  userName : String
  password : String
  hostName : String
  port : Int
  isOpen : Bool
  lastError : QSqlError
deriving DecidableEq, Repr

/-- A placeholder of a prepared statement, named or positional. -/
inductive Placeholder where
  | name (key : String)
  | pos (i : Nat)
deriving DecidableEq, Repr

/-- A `QSqlQuery`: the prepared text, the `bindValue` calls made on it in call
order, and what the driver reports after an execution: its last error, the rows
of the result set in the order `next()` yields them, the last insert id and the
number of affected rows. -/
structure QSqlQuery where
  sql : String
  boundValues : List (Placeholder × QVariant)
  lastError : QSqlError
  rows : List SqlRecord
  lastInsertId : QVariant
  numRowsAffected : Int
deriving DecidableEq, Repr

/-- `QSqlQuery query(db); query.prepare(sql)`: a statement that has not run. -/
def QSqlQuery.prepare (sql : String) : QSqlQuery :=
  { sql := sql, boundValues := [], lastError := QSqlError.none, rows := [],
    lastInsertId := QVariant.invalid, numRowsAffected := -1 }

/-- `QSqlQuery::bindValue`, for either kind of placeholder. -/
def QSqlQuery.bindValue (q : QSqlQuery) (p : Placeholder) (v : QVariant) : QSqlQuery :=
  { q with boundValues := q.boundValues ++ [(p, v)] }

/-- What the external collaborators answer during one call of a worker: the
clock, the uuid generator and the SQL driver. -/
structure Driver where
  /-- The value of `QDateTime::currentDateTime()`, in milliseconds. -/
  currentDateTime : Int
  /-- The value of `QUuid::createUuid().toString()`. -/
  createUuid : String
  /-- The `lastError()` of a handle that `addDatabase` has just returned. -/
  addDatabaseError : QSqlError
  /-- The driver's `open()` on a handle: its return value and the handle's
  `lastError()` afterwards. -/
  openDatabase : QSqlDatabase → Bool × QSqlError
  /-- The driver's `exec()` on a prepared statement: its return value and the
  statement afterwards. -/
  exec : QSqlQuery → Bool × QSqlQuery
  /-- The driver's `exec(sql)` on a statement: its return value and the
  statement afterwards. -/
  execSql : QSqlQuery → String → Bool × QSqlQuery

/-- The calls a worker makes on the driver and on the process-wide handle
registry, as a trace. -/
inductive DriverCall where
  | addDatabase (type : String) (connectionName : String)
  | openDatabase (connectionName : String)
  | exec (sql : String)
  | execSql (sql : String)
  | removeDatabase (connectionName : String)
deriving DecidableEq, Repr

/-- Recognises an `open()` call in a trace. -/
def DriverCall.isOpen : DriverCall → Bool
  | DriverCall.openDatabase _ => true
  | _ => false

/-- Recognises a registration of a new handle in a trace. -/
def DriverCall.isAddDatabase : DriverCall → Bool
  | DriverCall.addDatabase _ _ => true
  | _ => false

/-- Recognises a teardown of a handle in a trace. -/
def DriverCall.isRemoveDatabase : DriverCall → Bool
  | DriverCall.removeDatabase _ => true
  | _ => false

/-- The number of `open()` attempts in a trace. -/
def openAttempts (calls : List DriverCall) : Nat :=
  calls.countP DriverCall.isOpen

/-- The number of handles created in a trace. -/
def handlesCreated (calls : List DriverCall) : Nat :=
  calls.countP DriverCall.isAddDatabase

/-- The number of handles torn down in a trace. -/
def handlesReleased (calls : List DriverCall) : Nat :=
  calls.countP DriverCall.isRemoveDatabase

/-! ## Result type -/

/-- The struct `SqlResultPrivate`. -/
structure SqlResultPrivate where
  error : QSqlError
  records : SqlRecords
  lastInsertId : QVariant
  numRowsAffected : Int
deriving DecidableEq, Repr

/-- The value initialised `new SqlResultPrivate()` of `SqlConnection::query`. -/
def SqlResultPrivate.fresh : SqlResultPrivate :=
  { error := QSqlError.none, records := [], lastInsertId := QVariant.invalid,
    numRowsAffected := 0 }

/-! ## SqlConnectionHandler -/

/-- The constant `SqlConnection::TYPE_QOCI`. -/
def TYPE_QOCI : String := "QOCI"

/-- The constant `SqlConnection::TYPE_QMYSQL`. -/
def TYPE_QMYSQL : String := "QMYSQL"

/-- The data members of `SqlConnectionHandler`.  `m_handler` is the owned
pointer to the native handle, `none` for `NULL`. -/
structure SqlConnectionHandler where
  m_handler : Option QSqlDatabase
  m_lastOpenTime : QDateTime
  m_autoOpenInterval : Nat
  m_type : String
  m_databaseName : String
  m_userName : String
  m_password : String
  m_host : String
  m_port : Int
  m_testSql : String
deriving DecidableEq, Repr

/-- The constructor `SqlConnectionHandler::SqlConnectionHandler`. -/
def SqlConnectionHandler.ctor (type databaseName userName password host : String)
    (port : Int) : SqlConnectionHandler :=
  { m_handler := none
    m_lastOpenTime := none
    m_autoOpenInterval := 10000
    m_type := type
    m_databaseName := databaseName
    m_userName := userName
    m_password := password
    m_host := host
    m_port := port
    m_testSql := if type = TYPE_QOCI then "SELECT 1 FROM dual" else "SELECT 1;" }

/-- The member `SqlConnectionHandler::setAutoOpenInterval`. -/
def SqlConnectionHandler.setAutoOpenInterval (h : SqlConnectionHandler) (ms : Nat) :
    SqlConnectionHandler :=
  { h with m_autoOpenInterval := ms }

/-- The handle that `SqlConnectionHandler::initHandler` registers and
configures; a handle returned by `addDatabase` is not open. -/
def SqlConnectionHandler.initHandler (h : SqlConnectionHandler) (d : Driver) : QSqlDatabase :=
  { driverName := h.m_type
    connectionName := d.createUuid
    databaseName := h.m_databaseName
    userName := h.m_userName
    password := h.m_password
    hostName := h.m_host
    port := h.m_port
    isOpen := false
    lastError := d.addDatabaseError }

/-- The member `SqlConnectionHandler::releaseHandler`: deletes the handle, if
there is one, and removes it from the registry. -/
def SqlConnectionHandler.releaseHandler (h : SqlConnectionHandler) :
    SqlConnectionHandler × List DriverCall :=
  match h.m_handler with
  | some db => ({ h with m_handler := none }, [DriverCall.removeDatabase db.connectionName])
  | none => (h, [])

/-- The member `SqlConnectionHandler::open`, on the handle `db` that `m_handler`
points to: the return value and the handle afterwards.  The handle reports
`isOpen()` afterwards exactly when `open()` has returned `true`, and its
`lastError()` is the one the driver left. -/
def SqlConnectionHandler.openHandler (d : Driver) (db : QSqlDatabase) : Bool × QSqlDatabase :=
  let r := d.openDatabase db
  (r.1, { db with isOpen := r.1, lastError := r.2 })

/-- The outputs of `checkConnection`: return value, handler afterwards, the
`err` reference afterwards, and the driver calls made. -/
structure CheckResult where
  ret : Bool
  handler : SqlConnectionHandler
  err : QSqlError
  calls : List DriverCall

/-- The member `SqlConnectionHandler::checkConnection`. -/
def SqlConnectionHandler.checkConnection (h : SqlConnectionHandler) (d : Driver)
    (err : QSqlError) : CheckResult :=
  -- if (!m_handler) initHandler();
  let db : QSqlDatabase :=
    match h.m_handler with
    | some db => db
    | none => h.initHandler d
  let calls0 : List DriverCall :=
    match h.m_handler with
    | some _ => []
    | none => [DriverCall.addDatabase h.m_type d.createUuid]
  let h0 : SqlConnectionHandler := { h with m_handler := some db }
  if !db.isOpen then
    let err1 := db.lastError
    let now : QDateTime := some d.currentDateTime
    if h0.m_lastOpenTime.isValid
        && (h0.m_lastOpenTime.addMSecs (h0.m_autoOpenInterval : Int)).gt now then
      { ret := false, handler := h0, err := err1, calls := calls0 }
    else
      let h1 : SqlConnectionHandler := { h0 with m_lastOpenTime := now }
      let o := SqlConnectionHandler.openHandler d db
      let h2 : SqlConnectionHandler := { h1 with m_handler := some o.2 }
      let calls1 := calls0 ++ [DriverCall.openDatabase db.connectionName]
      if !o.1 then
        let err2 := o.2.lastError
        let rel := h2.releaseHandler
        { ret := false, handler := rel.1, err := err2, calls := calls1 ++ rel.2 }
      else
        { ret := true, handler := h2, err := err1, calls := calls1 }
  else
    { ret := true, handler := h0, err := err, calls := calls0 }

/-- The rows loop of `doQeury`, `while (query.next()) records.push_back(query.record())`,
over the rows the result set still holds. -/
def fetchRows : List SqlRecord → SqlRecords → SqlRecords
  | [], records => records
  | row :: rest, records => fetchRows rest (records ++ [row])

/-- The outputs of `doQeury`: return value, `result` and `isOk` afterwards, and
the driver calls made. -/
structure QeuryResult where
  ret : Bool
  result : SqlResultPrivate
  isOk : Bool
  calls : List DriverCall

/-- The member `SqlConnectionHandler::doQeury`. -/
def SqlConnectionHandler.doQeury (h : SqlConnectionHandler) (d : Driver) (query : QSqlQuery)
    (result : SqlResultPrivate) : QeuryResult :=
  let e := d.exec query
  if e.1 then
    let result1 : SqlResultPrivate := { result with error := e.2.lastError }
    let result2 : SqlResultPrivate := { result1 with records := fetchRows e.2.rows result1.records }
    { ret := true
      result := { result2 with lastInsertId := e.2.lastInsertId,
                               numRowsAffected := e.2.numRowsAffected }
      isOk := true
      calls := [DriverCall.exec query.sql] }
  else
    let result1 : SqlResultPrivate := { result with error := e.2.lastError }
    let t := d.execSql e.2 h.m_testSql
    let calls := [DriverCall.exec query.sql, DriverCall.execSql h.m_testSql]
    if !t.1 then
      { ret := false
        result := { result1 with error := t.2.lastError, lastInsertId := t.2.lastInsertId,
                                 numRowsAffected := t.2.numRowsAffected }
        isOk := false
        calls := calls }
    else
      { ret := true
        result := { result1 with lastInsertId := t.2.lastInsertId,
                                 numRowsAffected := t.2.numRowsAffected }
        isOk := false
        calls := calls }

/-- The argument pointer of a query: the `QMap` overload or the `QVector`
overload, each possibly `NULL`.  A `QMap` is given by its entries in key
order, the order its iterator visits them. -/
inductive QueryArgs where
  | map (args : Option (List (String × QVariant)))
  | list (args : Option (List QVariant))

/-- The overload `prepareArgs(QSqlQuery&, const QMap<QString, QVariant>*)`. -/
def prepareArgsMap (query : QSqlQuery) : Option (List (String × QVariant)) → QSqlQuery
  | none => query
  | some args => args.foldl (fun q kv => q.bindValue (Placeholder.name kv.1) kv.2) query

/-- The overload `prepareArgs(QSqlQuery&, const QVector<QVariant>*)`. -/
def prepareArgsList (query : QSqlQuery) : Option (List QVariant) → QSqlQuery
  | none => query
  | some args =>
    (args.foldl (fun (s : QSqlQuery × Nat) arg => (s.1.bindValue (Placeholder.pos s.2) arg, s.2 + 1))
      (query, 0)).1

/-- The template `prepareArgs<T>`, which forwards to the overload for `T`. -/
def prepareArgs (query : QSqlQuery) : QueryArgs → QSqlQuery
  | QueryArgs.map args => prepareArgsMap query args
  | QueryArgs.list args => prepareArgsList query args

/-- The outputs of `doQuery`: handler afterwards, `result` and `isOk`
afterwards, and the driver calls made. -/
structure QueryOutcome where
  handler : SqlConnectionHandler
  result : SqlResultPrivate
  isOk : Bool
  calls : List DriverCall

/-- The template member `SqlConnectionHandler::doQuery<T>`.  The statement runs
on the handle `m_handler` points to; what the driver does with it is `d`. -/
def SqlConnectionHandler.doQuery (h : SqlConnectionHandler) (d : Driver) (sql : String)
    (args : QueryArgs) (result : SqlResultPrivate) : QueryOutcome :=
  let c := h.checkConnection d result.error
  let result0 : SqlResultPrivate := { result with error := c.err }
  if !c.ret then
    { handler := c.handler, result := result0, isOk := c.ret, calls := c.calls }
  else
    let query := prepareArgs (QSqlQuery.prepare sql) args
    let q := c.handler.doQeury d query result0
    if !q.ret then
      let rel := c.handler.releaseHandler
      { handler := rel.1, result := q.result, isOk := q.isOk, calls := c.calls ++ q.calls ++ rel.2 }
    else
      { handler := c.handler, result := q.result, isOk := q.isOk, calls := c.calls ++ q.calls }

/-- The slots `doQeuryWithArgsMap` and `doQeuryWithArgsList`, which instantiate
`doQuery` at the type of their argument pointer. -/
def SqlConnectionHandler.doQeuryWithArgs (h : SqlConnectionHandler) (d : Driver) (sql : String)
    (args : QueryArgs) (result : SqlResultPrivate) : QueryOutcome :=
  h.doQuery d sql args result

/-! ## SqlConnection -/

/-- The class `SqlConnection`.  Its constructor returns only when the worker
thread has stored the handler and connected the two signals, so the handler
pointer is set in every constructed worker. -/
structure SqlConnection where
  m_handler : SqlConnectionHandler
deriving DecidableEq, Repr

/-- The constructor `SqlConnection::SqlConnection`. -/
def SqlConnection.ctor (type databaseName userName password host : String) (port : Int) :
    SqlConnection :=
  { m_handler := SqlConnectionHandler.ctor type databaseName userName password host port }

/-- The member `SqlConnection::setAutoOpenInterval`; the handler pointer is set,
so the guarded call is made. -/
def SqlConnection.setAutoOpenInterval (c : SqlConnection) (ms : Nat) : SqlConnection :=
  { c with m_handler := c.m_handler.setAutoOpenInterval ms }

/-- The outputs of `SqlConnection::query`. -/
structure ConnectionReturn where
  conn : SqlConnection
  result : SqlResultPrivate
  isOk : Bool
  calls : List DriverCall

/-- The three overloads of `SqlConnection::query`: a new `SqlResultPrivate` is
handed to the connected slot through the blocking queued signal.  The overload
without arguments is `QueryArgs.map none`. -/
def SqlConnection.query (c : SqlConnection) (d : Driver) (sql : String) (args : QueryArgs) :
    ConnectionReturn :=
  let o := c.m_handler.doQeuryWithArgs d sql args SqlResultPrivate.fresh
  { conn := { c with m_handler := o.handler }, result := o.result, isOk := o.isOk,
    calls := o.calls }

/-! ## SqlConnectionPool -/

/-- The class `SqlConnectionPool`; `m_counter` is the `std::atomic<unsigned>`,
a number below `2^32` that `query` increments modulo `2^32`. -/
structure SqlConnectionPool where
  m_type : String
  m_databaseName : String
  m_userName : String
  m_password : String
  m_host : String
  m_port : Int
  m_counter : Nat
  m_connections : List SqlConnection
deriving DecidableEq, Repr

/-- The loop of the pool constructor: `remaining` more workers are created,
configured and pushed to the back of `conns`. -/
def SqlConnectionPool.pushConnections (type databaseName userName password host : String)
    (port : Int) (autoOpenInterval : Nat) : Nat → List SqlConnection → List SqlConnection
  | 0, conns => conns
  | remaining + 1, conns =>
    let conn := SqlConnection.ctor type databaseName userName password host port
    let conn1 := conn.setAutoOpenInterval autoOpenInterval
    SqlConnectionPool.pushConnections type databaseName userName password host port
      autoOpenInterval remaining (conns ++ [conn1])

/-- The outputs of the pool constructor: the number of workers (each a
`SqlConnection` with its thread) it has started, and the pool or the message
of the assertion that stopped it. -/
structure PoolCtorReturn where
  workersStarted : Nat
  pool : Except String SqlConnectionPool

/-- Modelled from the spec: the Qt macro `Q_ASSERT_X(cond, where, what)`, which
the constructor uses and the sources of the repository do not define.  The spec
has the construction "fail fast, e.g. an assertion/error": the macro is an
active assertion, which stops with its message when `cond` is false and does
nothing otherwise. -/
def Q_ASSERT_X (cond : Bool) (location what : String) : Except String Unit :=
  if cond then Except.ok () else Except.error ("ASSERT failure in " ++ location ++ ": " ++ what)

/-- The constructor `SqlConnectionPool::SqlConnectionPool`: the assertion on
`numConnection`, then the loop that starts the workers. -/
def SqlConnectionPool.ctor (numConnection : Nat) (type databaseName userName password host : String)
    (port : Int) (autoOpenInterval : Nat) : PoolCtorReturn :=
  match Q_ASSERT_X (decide (numConnection ≠ 0)) "SqlConnectionPool" "numConnection == 0" with
  | Except.error msg => { workersStarted := 0, pool := Except.error msg }
  | Except.ok _ =>
    let conns :=
      SqlConnectionPool.pushConnections type databaseName userName password host port
        autoOpenInterval numConnection []
    { workersStarted := conns.length
      pool := Except.ok
        { m_type := type
          m_databaseName := databaseName
          m_userName := userName
          m_password := password
          m_host := host
          m_port := port
          m_counter := 0
          m_connections := conns } }

/-- The outputs of `SqlConnectionPool::query`, with the index of the worker the
call was routed to. -/
structure PoolReturn where
  pool : SqlConnectionPool
  index : Nat
  result : SqlResultPrivate
  isOk : Bool
  calls : List DriverCall

/-- The three overloads of `SqlConnectionPool::query`.  The counter is
incremented in 32 bits; `none` is a failed `m_connections.at(...)`. -/
def SqlConnectionPool.query (p : SqlConnectionPool) (d : Driver) (sql : String)
    (args : QueryArgs) : Option PoolReturn :=
  let count := (p.m_counter + 1) % 4294967296
  let index := count % p.m_connections.length
  match p.m_connections.get? index with
  | none => none
  | some conn =>
    let r := conn.query d sql args
    some { pool := { p with m_counter := count, m_connections := p.m_connections.set index r.conn }
           index := index
           result := r.result
           isOk := r.isOk
           calls := r.calls }

/-- One call on the pool: what the driver answers during it, and its arguments. -/
structure PoolCall where
  driver : Driver
  sql : String
  args : QueryArgs

/-- Sequential calls of `SqlConnectionPool::query`: the pool after the last call
and the worker index each call was routed to.  A failed lookup is recorded as
`none` and ends the run. -/
def SqlConnectionPool.queries : SqlConnectionPool → List PoolCall →
    SqlConnectionPool × List (Option Nat)
  | p, [] => (p, [])
  | p, c :: cs =>
    match p.query c.driver c.sql c.args with
    | none => (p, [none])
    | some r =>
      let rest := SqlConnectionPool.queries r.pool cs
      (rest.1, some r.index :: rest.2)

/-- Sequential calls of `SqlConnectionPool::query` on a pool that has just been
constructed: the worker index each call was routed to, or `none` when the
constructor was stopped by its assertion. -/
def SqlConnectionPool.freshRoutes (numConnection : Nat)
    (type databaseName userName password host : String) (port : Int) (autoOpenInterval : Nat)
    (cs : List PoolCall) : Option (List (Option Nat)) :=
  match (SqlConnectionPool.ctor numConnection type databaseName userName password host port
      autoOpenInterval).pool with
  | Except.ok p => some (p.queries cs).2
  | Except.error _ => none

/-! ## Sample driver behaviours -/

/-- A connection-level error of the driver. -/
def errConnect : QSqlError :=
  { type := ErrorType.ConnectionError, text := "Can not connect to MySQL server" }

/-- A statement-level error of the driver. -/
def errStatement : QSqlError :=
  { type := ErrorType.StatementError, text := "You have an error in your SQL syntax" }

/-- A further connection-level error, reported when the server has gone away. -/
def errGoneAway : QSqlError :=
  { type := ErrorType.ConnectionError, text := "MySQL server has gone away" }

/-- One row of the table `test`. -/
def sampleRow1 : SqlRecord := [("id", QVariant.int 1), ("name", QVariant.string "a")]

/-- Another row of the table `test`. -/
def sampleRow2 : SqlRecord := [("id", QVariant.int 2), ("name", QVariant.string "b")]

/-- A statement that has run and produced the two sample rows. -/
def sampleExecuted (q : QSqlQuery) : QSqlQuery :=
  { q with lastError := QSqlError.none, rows := [sampleRow1, sampleRow2],
           lastInsertId := QVariant.int 7, numRowsAffected := 2 }

/-- A statement that has failed with the error `e`. -/
def sampleFailed (e : QSqlError) (q : QSqlQuery) : QSqlQuery :=
  { q with lastError := e, rows := [], lastInsertId := QVariant.invalid, numRowsAffected := -1 }

/-- A reachable server at time `now`: a new handle carries no error, `open()`
succeeds and every statement runs. -/
def driverUp (now : Int) : Driver :=
  { currentDateTime := now
    createUuid := "conn-up"
    addDatabaseError := QSqlError.none
    openDatabase := fun _ => (true, QSqlError.none)
    exec := fun q => (true, sampleExecuted q)
    execSql := fun q _ => (true, sampleExecuted q) }

/-- An unreachable server at time `now`: a new handle carries no error,
`open()` fails with a connection error, and so does every statement. -/
def driverDown (now : Int) : Driver :=
  { currentDateTime := now
    createUuid := "conn-down"
    addDatabaseError := QSqlError.none
    openDatabase := fun _ => (false, errConnect)
    exec := fun q => (false, sampleFailed errGoneAway q)
    execSql := fun q _ => (false, sampleFailed errGoneAway q) }

/-- A reachable server at time `now` that rejects the statement but runs the
probe. -/
def driverBadStatement (now : Int) : Driver :=
  { currentDateTime := now
    createUuid := "conn-bad"
    addDatabaseError := QSqlError.none
    openDatabase := fun _ => (true, QSqlError.none)
    exec := fun q => (false, sampleFailed errStatement q)
    execSql := fun q _ => (true, sampleExecuted q) }

/-- A worker as the pool constructor leaves it, for a MySQL database. -/
def sampleWorker : SqlConnection :=
  (SqlConnection.ctor TYPE_QMYSQL "test" "root" "123456" "127.0.0.1" 3306).setAutoOpenInterval 10000

/-- A worker whose handle was opened at time `0` and is still open. -/
def sampleOpenWorker : SqlConnection :=
  ((sampleWorker.query (driverUp 0) "SELECT * FROM test" (QueryArgs.map none))).conn

/-- A call of the pool against a reachable server. -/
def sampleCall : PoolCall :=
  { driver := driverUp 0, sql := "SELECT * FROM test", args := QueryArgs.map none }

/-- The pool of `main.cpp` with its counter at the last 32-bit value. -/
def samplePoolAtWrap : SqlConnectionPool :=
  { m_type := TYPE_QMYSQL, m_databaseName := "test", m_userName := "root",
    m_password := "123456", m_host := "127.0.0.1", m_port := 3306,
    m_counter := 4294967295,
    m_connections := [sampleWorker, sampleWorker, sampleWorker, sampleWorker] }

/-- The native handle of `sampleOpenWorker`. -/
def sampleOpenHandle : QSqlDatabase :=
  { driverName := "QMYSQL", connectionName := "conn-up", databaseName := "test",
    userName := "root", password := "123456", hostName := "127.0.0.1", port := 3306,
    isOpen := true, lastError := QSqlError.none }

/-- A worker whose only open attempt, at time `0`, has failed. -/
def sampleDownWorker : SqlConnection :=
  (sampleWorker.query (driverDown 0) "SELECT * FROM test" (QueryArgs.map none)).conn

/-- The driver reports an actual error with every operation that fails. -/
def Driver.reportsErrors (d : Driver) : Prop :=
  (∀ db, (d.openDatabase db).1 = false → (d.openDatabase db).2.isValid = true)
  ∧ (∀ q, (d.exec q).1 = false → (d.exec q).2.lastError.isValid = true)
  ∧ (∀ q sql, (d.execSql q sql).1 = false → (d.execSql q sql).2.lastError.isValid = true)

/-! ## The pool: construction and dispatch -/

/-- The constructor loop appends `remaining` copies of the configured worker. -/
theorem pushConnections_eq (type databaseName userName password host : String) (port : Int)
    (autoOpenInterval : Nat) (remaining : Nat) (conns : List SqlConnection) :
    SqlConnectionPool.pushConnections type databaseName userName password host port
        autoOpenInterval remaining conns
      = conns ++ List.replicate remaining
          ((SqlConnection.ctor type databaseName userName password host port).setAutoOpenInterval
            autoOpenInterval) := by
  induction remaining generalizing conns with
  | zero => simp [SqlConnectionPool.pushConnections]
  | succ k ih =>
    simp only [SqlConnectionPool.pushConnections]
    rw [ih, List.replicate_succ, List.append_assoc]
    rfl

/-- With a positive `numConnection` the assertion passes and the constructor
runs its loop. -/
theorem ctor_of_pos (n : Nat) (type databaseName userName password host : String) (port : Int)
    (autoOpenInterval : Nat) (hn : 1 ≤ n) :
    SqlConnectionPool.ctor n type databaseName userName password host port autoOpenInterval
      = { workersStarted := n
          pool := Except.ok
            { m_type := type, m_databaseName := databaseName, m_userName := userName,
              m_password := password, m_host := host, m_port := port, m_counter := 0,
              m_connections := List.replicate n
                ((SqlConnection.ctor type databaseName userName password host port).setAutoOpenInterval
                  autoOpenInterval) } } := by
  have hne : n ≠ 0 := by omega
  simp [SqlConnectionPool.ctor, Q_ASSERT_X, hne, pushConnections_eq]

/-- A call of `query` on a pool that has a worker returns, and routes to the
incremented counter modulo the number of workers. -/
theorem query_of_pos (p : SqlConnectionPool) (d : Driver) (sql : String) (args : QueryArgs)
    (hN : 1 ≤ p.m_connections.length) :
    ∃ r, p.query d sql args = some r
      ∧ r.index = (p.m_counter + 1) % 4294967296 % p.m_connections.length
      ∧ r.pool.m_counter = (p.m_counter + 1) % 4294967296
      ∧ r.pool.m_connections.length = p.m_connections.length := by
  have hlt : (p.m_counter + 1) % 4294967296 % p.m_connections.length < p.m_connections.length :=
    Nat.mod_lt _ (by omega)
  obtain ⟨conn, hconn⟩ : ∃ conn, p.m_connections.get?
      ((p.m_counter + 1) % 4294967296 % p.m_connections.length) = some conn := by
    rw [List.get?_eq_get hlt]
    exact ⟨_, rfl⟩
  have hq : p.query d sql args = some
      { pool := { p with m_counter := (p.m_counter + 1) % 4294967296,
                         m_connections := p.m_connections.set
                           ((p.m_counter + 1) % 4294967296 % p.m_connections.length)
                           (conn.query d sql args).conn }
        index := (p.m_counter + 1) % 4294967296 % p.m_connections.length
        result := (conn.query d sql args).result
        isOk := (conn.query d sql args).isOk
        calls := (conn.query d sql args).calls } := by
    simp only [SqlConnectionPool.query, hconn]
  exact ⟨_, hq, rfl, rfl, by simp⟩

/-- Sequential calls never change the number of workers. -/
theorem queries_length (cs : List PoolCall) (p : SqlConnectionPool) :
    (p.queries cs).1.m_connections.length = p.m_connections.length := by
  induction cs generalizing p with
  | nil => rfl
  | cons c cs ih =>
    simp only [SqlConnectionPool.queries]
    cases hq : p.query c.driver c.sql c.args with
    | none => simp
    | some r =>
      have hr : r.pool.m_connections.length = p.m_connections.length := by
        simp only [SqlConnectionPool.query] at hq
        split at hq
        · exact absurd hq (by simp)
        · simp only [Option.some.injEq] at hq
          subst hq
          simp
      simpa [hr] using ih r.pool

/-- As long as the counter does not wrap, the `i`-th of a run of sequential calls
(counted from `0`) is routed to worker `(m_counter + i + 1) mod N`. -/
theorem queries_routes (cs : List PoolCall) (p : SqlConnectionPool)
    (hN : 1 ≤ p.m_connections.length) (hc : p.m_counter + cs.length < 4294967296) :
    (p.queries cs).2
      = (List.range cs.length).map
          (fun i => some ((p.m_counter + i + 1) % p.m_connections.length)) := by
  induction cs generalizing p with
  | nil => rfl
  | cons c cs ih =>
    obtain ⟨r, hq, hidx, hcnt, hlen⟩ := query_of_pos p c.driver c.sql c.args hN
    simp only [List.length_cons] at hc
    have hmod : (p.m_counter + 1) % 4294967296 = p.m_counter + 1 := Nat.mod_eq_of_lt (by omega)
    rw [hmod] at hidx hcnt
    simp only [SqlConnectionPool.queries, hq, List.length_cons, List.range_succ_eq_map,
      List.map_cons, List.map_map]
    rw [ih r.pool (by omega) (by omega), hidx, hcnt, hlen]
    congr 1
    apply List.map_congr_left
    intro i _
    simp only [Function.comp, Nat.succ_eq_add_one]
    congr 2
    omega

/-- Sequential calls on a pool that has a worker never fail the lookup. -/
theorem queries_all_routed (cs : List PoolCall) (p : SqlConnectionPool)
    (hN : 1 ≤ p.m_connections.length) :
    ∀ x ∈ (p.queries cs).2, ∃ i, x = some i ∧ i < p.m_connections.length := by
  induction cs generalizing p with
  | nil => intro x hx; simp [SqlConnectionPool.queries] at hx
  | cons c cs ih =>
    obtain ⟨r, hq, hidx, _, hlen⟩ := query_of_pos p c.driver c.sql c.args hN
    intro x hx
    simp only [SqlConnectionPool.queries, hq, List.mem_cons] at hx
    rcases hx with hx | hx
    · exact ⟨r.index, hx, by rw [hidx]; exact Nat.mod_lt _ (by omega)⟩
    · have h := ih r.pool (by omega) x hx
      rwa [hlen] at h

/-- C5: constructing a pool with `numConnection = 0` stops at the assertion with
no worker started, and for every `n ≥ 1` the construction succeeds with exactly
`n` workers, each with its auto-reopen interval set to the `autoOpenInterval`
argument and with no native handle yet. -/
theorem C5_construction (n : Nat) (type databaseName userName password host : String)
    (port : Int) (autoOpenInterval : Nat) (hn : 1 ≤ n) :
    ((∃ msg, (SqlConnectionPool.ctor 0 type databaseName userName password host port
          autoOpenInterval).pool = Except.error msg)
      ∧ (SqlConnectionPool.ctor 0 type databaseName userName password host port
          autoOpenInterval).workersStarted = 0)
    ∧ ∃ pool, (SqlConnectionPool.ctor n type databaseName userName password host port
          autoOpenInterval).pool = Except.ok pool
        ∧ (SqlConnectionPool.ctor n type databaseName userName password host port
          autoOpenInterval).workersStarted = n
        ∧ pool.m_connections.length = n
        ∧ ∀ c ∈ pool.m_connections,
            c.m_handler.m_autoOpenInterval = autoOpenInterval ∧ c.m_handler.m_handler = none := by
  refine ⟨⟨⟨_, rfl⟩, rfl⟩, ?_⟩
  rw [ctor_of_pos n type databaseName userName password host port autoOpenInterval hn]
  refine ⟨_, rfl, rfl, by simp, ?_⟩
  intro c hc
  rw [List.eq_of_mem_replicate hc]
  exact ⟨rfl, rfl⟩

/-- C5 at `n = 4`, the pool of `main.cpp`. -/
theorem C5_construction_witness :
    ((∃ msg, (SqlConnectionPool.ctor 0 TYPE_QMYSQL "test" "root" "123456" "127.0.0.1" 3306
          10000).pool = Except.error msg)
      ∧ (SqlConnectionPool.ctor 0 TYPE_QMYSQL "test" "root" "123456" "127.0.0.1" 3306
          10000).workersStarted = 0)
    ∧ ∃ pool, (SqlConnectionPool.ctor 4 TYPE_QMYSQL "test" "root" "123456" "127.0.0.1" 3306
          10000).pool = Except.ok pool
        ∧ (SqlConnectionPool.ctor 4 TYPE_QMYSQL "test" "root" "123456" "127.0.0.1" 3306
          10000).workersStarted = 4
        ∧ pool.m_connections.length = 4
        ∧ ∀ c ∈ pool.m_connections,
            c.m_handler.m_autoOpenInterval = 10000 ∧ c.m_handler.m_handler = none :=
  C5_construction 4 TYPE_QMYSQL "test" "root" "123456" "127.0.0.1" 3306 10000 (by decide)

/-- C7: for every pool with `N ≥ 1` workers and every value of the dispatch
counter, the index `((counter + 1) mod 2^32) mod N` that `query` computes is
below `N`, the lookup succeeds and the call is routed to that index (to worker
`0` when the counter wraps from `2^32 - 1`), and neither one call nor any
sequence of calls changes the number of workers or fails a lookup. -/
theorem C7_dispatch_in_range (p : SqlConnectionPool) (d : Driver) (sql : String)
    (args : QueryArgs) (cs : List PoolCall) (hN : 1 ≤ p.m_connections.length) :
    (p.m_counter + 1) % 4294967296 % p.m_connections.length < p.m_connections.length
    ∧ (∃ r, p.query d sql args = some r
        ∧ r.index = (p.m_counter + 1) % 4294967296 % p.m_connections.length
        ∧ r.pool.m_counter = (p.m_counter + 1) % 4294967296
        ∧ r.pool.m_counter < 4294967296
        ∧ (p.m_counter = 4294967295 → r.pool.m_counter = 0 ∧ r.index = 0)
        ∧ r.pool.m_connections.length = p.m_connections.length)
    ∧ (p.queries cs).1.m_connections.length = p.m_connections.length
    ∧ ∀ x ∈ (p.queries cs).2, ∃ i, x = some i ∧ i < p.m_connections.length := by
  refine ⟨Nat.mod_lt _ (by omega), ?_, queries_length cs p, queries_all_routed cs p hN⟩
  obtain ⟨r, hq, hidx, hcnt, hlen⟩ := query_of_pos p d sql args hN
  refine ⟨r, hq, hidx, hcnt, ?_, ?_, hlen⟩
  · rw [hcnt]; exact Nat.mod_lt _ (by decide)
  · intro hc
    rw [hidx, hcnt, hc]
    exact ⟨rfl, by simp⟩

/-- C7 on a pool of four workers whose counter is about to wrap. -/
theorem C7_dispatch_in_range_witness :
    (samplePoolAtWrap.m_counter + 1) % 4294967296 % samplePoolAtWrap.m_connections.length
      < samplePoolAtWrap.m_connections.length
    ∧ (∃ r, samplePoolAtWrap.query (driverUp 0) "SELECT * FROM test" (QueryArgs.map none) = some r
        ∧ r.index = (samplePoolAtWrap.m_counter + 1) % 4294967296
            % samplePoolAtWrap.m_connections.length
        ∧ r.pool.m_counter = (samplePoolAtWrap.m_counter + 1) % 4294967296
        ∧ r.pool.m_counter < 4294967296
        ∧ (samplePoolAtWrap.m_counter = 4294967295 → r.pool.m_counter = 0 ∧ r.index = 0)
        ∧ r.pool.m_connections.length = samplePoolAtWrap.m_connections.length)
    ∧ (samplePoolAtWrap.queries [sampleCall, sampleCall]).1.m_connections.length
        = samplePoolAtWrap.m_connections.length
    ∧ ∀ x ∈ (samplePoolAtWrap.queries [sampleCall, sampleCall]).2,
        ∃ i, x = some i ∧ i < samplePoolAtWrap.m_connections.length :=
  C7_dispatch_in_range samplePoolAtWrap (driverUp 0) "SELECT * FROM test" (QueryArgs.map none)
    [sampleCall, sampleCall] (by decide)

/-- C1, as stated, fails: on a new pool of two workers the first call is routed
to worker `1` and the second to worker `0`, not to workers `0` and `1`. -/
theorem C1_counterexample :
    SqlConnectionPool.freshRoutes 2 TYPE_QMYSQL "test" "root" "123456" "127.0.0.1" 3306 10000
        [sampleCall, sampleCall, sampleCall]
      = some [some 1, some 0, some 1]
    ∧ SqlConnectionPool.freshRoutes 2 TYPE_QMYSQL "test" "root" "123456" "127.0.0.1" 3306 10000
        [sampleCall, sampleCall, sampleCall]
      ≠ some [some 0, some 1, some 0] := by
  decide

/-- C1, amended: for every pool size `N ≥ 1`, on a newly constructed pool the
`k`-th sequential call of `query`, counted from `1` and below `2^32`, is routed
to worker `k mod N`; so the first `N` calls go to workers `1, 2, ..., N-1, 0` in
that order, the `N`-th call being the one routed to worker `0`, and call `N+1`
goes to worker `1 mod N`, the worker of the first call. -/
theorem C1_round_robin (n : Nat) (type databaseName userName password host : String)
    (port : Int) (autoOpenInterval : Nat) (cs : List PoolCall) (hn : 1 ≤ n)
    (hlen : cs.length < 4294967296) :
    SqlConnectionPool.freshRoutes n type databaseName userName password host port
        autoOpenInterval cs
      = some ((List.range cs.length).map (fun i => some ((i + 1) % n)))
    ∧ (∀ k, 1 ≤ k → k ≤ cs.length →
        ∃ routes, SqlConnectionPool.freshRoutes n type databaseName userName password host port
            autoOpenInterval cs = some routes
          ∧ routes.get? (k - 1) = some (some (k % n)))
    ∧ (n + 1 ≤ cs.length →
        ∃ routes, SqlConnectionPool.freshRoutes n type databaseName userName password host port
            autoOpenInterval cs = some routes
          ∧ routes.get? 0 = some (some (1 % n))
          ∧ routes.get? (n - 1) = some (some 0)
          ∧ routes.get? n = some (some (1 % n))) := by
  have hmain : SqlConnectionPool.freshRoutes n type databaseName userName password host port
        autoOpenInterval cs
      = some ((List.range cs.length).map (fun i => some ((i + 1) % n))) := by
    simp only [SqlConnectionPool.freshRoutes,
      ctor_of_pos n type databaseName userName password host port autoOpenInterval hn]
    rw [queries_routes cs _ (by simpa using hn) (by simpa using hlen)]
    simp
  have hget : ∀ k, 1 ≤ k → k ≤ cs.length →
      ((List.range cs.length).map (fun i => some ((i + 1) % n))).get? (k - 1)
        = some (some (k % n)) := by
    intro k hk1 hk2
    have hlt : k - 1 < cs.length := by omega
    simp only [List.get?_eq_getElem?, List.getElem?_map, List.getElem?_range hlt, Option.map_some']
    have : k - 1 + 1 = k := by omega
    rw [this]
  refine ⟨hmain, ?_, ?_⟩
  · intro k hk1 hk2
    exact ⟨_, hmain, hget k hk1 hk2⟩
  · intro hl
    refine ⟨_, hmain, ?_, ?_, ?_⟩
    · simpa using hget 1 (by omega) (by omega)
    · simpa using hget n hn (by omega)
    · simpa using hget (n + 1) (by omega) hl

/-- C1, amended, on a pool of three workers and four calls. -/
theorem C1_round_robin_witness :
    SqlConnectionPool.freshRoutes 3 TYPE_QMYSQL "test" "root" "123456" "127.0.0.1" 3306 10000
        [sampleCall, sampleCall, sampleCall, sampleCall]
      = some [some 1, some 2, some 0, some 1] :=
  (C1_round_robin 3 TYPE_QMYSQL "test" "root" "123456" "127.0.0.1" 3306 10000
    [sampleCall, sampleCall, sampleCall, sampleCall] (by decide) (by decide)).1


/-! ## The worker: health check, throttle and probe -/

/-- The rows loop appends the rows of the result set in their order. -/
theorem fetchRows_eq (rows : List SqlRecord) (records : SqlRecords) :
    fetchRows rows records = records ++ rows := by
  induction rows generalizing records with
  | nil => simp [fetchRows]
  | cons r rs ih => simp [fetchRows, ih]

/-- With an open handle the health check succeeds and touches nothing. -/
theorem checkConnection_open (h : SqlConnectionHandler) (d : Driver) (err : QSqlError)
    (db : QSqlDatabase) (hdb : h.m_handler = some db) (hopen : db.isOpen = true) :
    h.checkConnection d err = { ret := true, handler := h, err := err, calls := [] } := by
  cases h
  simp only at hdb
  subst hdb
  simp [SqlConnectionHandler.checkConnection, hopen]

/-- The throttled path of the health check: the handle is closed or absent and
the last open attempt is less than the interval ago. -/
theorem checkConnection_throttled (h : SqlConnectionHandler) (d : Driver) (err : QSqlError)
    (t0 : Int) (hclosed : ∀ db, h.m_handler = some db → db.isOpen = false)
    (hlast : h.m_lastOpenTime = some t0)
    (ht : d.currentDateTime < t0 + (h.m_autoOpenInterval : Int)) :
    h.checkConnection d err
      = { ret := false
          handler := { h with m_handler := some (h.m_handler.getD (h.initHandler d)) }
          err := (h.m_handler.getD (h.initHandler d)).lastError
          calls := if h.m_handler = none then [DriverCall.addDatabase h.m_type d.createUuid]
                   else [] } := by
  cases hh : h.m_handler with
  | none =>
    simp [SqlConnectionHandler.checkConnection, hh, hlast, SqlConnectionHandler.initHandler,
      QDateTime.isValid, QDateTime.addMSecs, QDateTime.gt, ht]
  | some db =>
    have := hclosed db hh
    simp [SqlConnectionHandler.checkConnection, hh, hlast, this,
      QDateTime.isValid, QDateTime.addMSecs, QDateTime.gt, ht]

/-- The reopen path of the health check: the handle is closed or absent and no
throttle applies, so `open()` is called on the handle. -/
theorem checkConnection_attempt (h : SqlConnectionHandler) (d : Driver) (err : QSqlError)
    (hclosed : ∀ db, h.m_handler = some db → db.isOpen = false)
    (hdue : ∀ t0, h.m_lastOpenTime = some t0 →
      t0 + (h.m_autoOpenInterval : Int) ≤ d.currentDateTime) :
    h.checkConnection d err
      = (if (d.openDatabase (h.m_handler.getD (h.initHandler d))).1 then
          { ret := true
            handler := { h with
              m_handler := some { h.m_handler.getD (h.initHandler d) with
                isOpen := true
                lastError := (d.openDatabase (h.m_handler.getD (h.initHandler d))).2 }
              m_lastOpenTime := some d.currentDateTime }
            err := (h.m_handler.getD (h.initHandler d)).lastError
            calls := (if h.m_handler = none then [DriverCall.addDatabase h.m_type d.createUuid]
                   else []) ++ [DriverCall.openDatabase
                      (h.m_handler.getD (h.initHandler d)).connectionName] }
        else
          { ret := false
            handler := { h with m_handler := none, m_lastOpenTime := some d.currentDateTime }
            err := (d.openDatabase (h.m_handler.getD (h.initHandler d))).2
            calls := (if h.m_handler = none then [DriverCall.addDatabase h.m_type d.createUuid]
                   else []) ++ [DriverCall.openDatabase
                      (h.m_handler.getD (h.initHandler d)).connectionName,
                    DriverCall.removeDatabase
                      (h.m_handler.getD (h.initHandler d)).connectionName] }) := by
  have hthr : (h.m_lastOpenTime.isValid
      && (QDateTime.addMSecs h.m_lastOpenTime (h.m_autoOpenInterval : Int)).gt
          (some d.currentDateTime)) = false := by
    cases hl : h.m_lastOpenTime with
    | none => simp [QDateTime.isValid]
    | some t0 =>
      have := hdue t0 hl
      simp [QDateTime.isValid, QDateTime.addMSecs, QDateTime.gt]
      omega
  cases hh : h.m_handler with
  | none =>
    cases ho : (d.openDatabase (h.initHandler d)).1 <;>
    simp [SqlConnectionHandler.checkConnection, hh, hthr, SqlConnectionHandler.openHandler,
      SqlConnectionHandler.releaseHandler, ho, SqlConnectionHandler.initHandler] <;>
    simp [SqlConnectionHandler.initHandler] at ho <;> simp [ho]
  | some db =>
    have := hclosed db hh
    cases ho : (d.openDatabase db).1 <;>
    simp [SqlConnectionHandler.checkConnection, hh, hthr, SqlConnectionHandler.openHandler,
      SqlConnectionHandler.releaseHandler, ho, this]

/-- A health check that returns `true` leaves an open handle behind, so the
statement of `doQuery` is built on an existing handle. -/
theorem checkConnection_ret_handler (h : SqlConnectionHandler) (d : Driver) (err : QSqlError)
    (hret : (h.checkConnection d err).ret = true) :
    ∃ db, (h.checkConnection d err).handler.m_handler = some db ∧ db.isOpen = true := by
  by_cases hopen : ∃ db, h.m_handler = some db ∧ db.isOpen = true
  · obtain ⟨db, hdb, ho⟩ := hopen
    rw [checkConnection_open h d err db hdb ho]
    exact ⟨db, hdb, ho⟩
  · have hclosed : ∀ db, h.m_handler = some db → db.isOpen = false := by
      intro db hdb
      cases hb : db.isOpen with
      | false => rfl
      | true => exact absurd ⟨db, hdb, hb⟩ hopen
    by_cases hdue : ∀ t0, h.m_lastOpenTime = some t0 →
        t0 + (h.m_autoOpenInterval : Int) ≤ d.currentDateTime
    · rw [checkConnection_attempt h d err hclosed hdue] at hret ⊢
      split at hret
      · rename_i ho
        rw [if_pos ho]
        exact ⟨_, rfl, rfl⟩
      · simp at hret
    · push_neg at hdue
      obtain ⟨t0, hl, ht⟩ := hdue
      rw [checkConnection_throttled h d err t0 hclosed hl ht] at hret
      simp at hret

/-- A call on a worker whose handle is open makes no open attempt and creates
no handle. -/
theorem query_open_calls (c : SqlConnection) (db : QSqlDatabase) (d : Driver) (sql : String)
    (args : QueryArgs) (hdb : c.m_handler.m_handler = some db) (hopen : db.isOpen = true) :
    openAttempts (c.query d sql args).calls = 0
    ∧ handlesCreated (c.query d sql args).calls = 0 := by
  simp only [SqlConnection.query, SqlConnectionHandler.doQeuryWithArgs,
    SqlConnectionHandler.doQuery, checkConnection_open _ d _ db hdb hopen,
    SqlConnectionHandler.doQeury, SqlConnectionHandler.releaseHandler, hdb]
  cases (d.exec (prepareArgs (QSqlQuery.prepare sql) args)).1 <;>
  cases (d.execSql (d.exec (prepareArgs (QSqlQuery.prepare sql) args)).2
      c.m_handler.m_testSql).1 <;>
  simp [openAttempts, handlesCreated, DriverCall.isOpen, DriverCall.isAddDatabase]

/-- C3: on a worker with an open handle, a call whose statement fails while the
probe statement succeeds returns `ok = false` with the error of the original
statement, leaves the handle in place and open without any teardown, and the
next call on the same worker makes no open attempt and creates no handle. -/
theorem C3_probe_disambiguation (c : SqlConnection) (db : QSqlDatabase) (d dNext : Driver)
    (sql sqlNext : String) (args argsNext : QueryArgs)
    (hdb : c.m_handler.m_handler = some db) (hopen : db.isOpen = true)
    (hexec : (d.exec (prepareArgs (QSqlQuery.prepare sql) args)).1 = false)
    (hprobe : (d.execSql (d.exec (prepareArgs (QSqlQuery.prepare sql) args)).2
      c.m_handler.m_testSql).1 = true) :
    (c.query d sql args).isOk = false
    ∧ (c.query d sql args).result.error
        = (d.exec (prepareArgs (QSqlQuery.prepare sql) args)).2.lastError
    ∧ (c.query d sql args).conn.m_handler.m_handler = some db
    ∧ handlesReleased (c.query d sql args).calls = 0
    ∧ openAttempts (c.query d sql args).calls = 0
    ∧ openAttempts ((c.query d sql args).conn.query dNext sqlNext argsNext).calls = 0
    ∧ handlesCreated ((c.query d sql args).conn.query dNext sqlNext argsNext).calls = 0 := by
  have hq : (c.query d sql args).conn = c := by
    simp [SqlConnection.query, SqlConnectionHandler.doQeuryWithArgs, SqlConnectionHandler.doQuery,
      checkConnection_open _ d _ db hdb hopen, SqlConnectionHandler.doQeury, hexec, hprobe]
  have hnext := query_open_calls c db dNext sqlNext argsNext hdb hopen
  rw [hq]
  refine ⟨?_, ?_, hdb, ?_, (query_open_calls c db d sql args hdb hopen).1, hnext.1, hnext.2⟩
  · simp [SqlConnection.query, SqlConnectionHandler.doQeuryWithArgs, SqlConnectionHandler.doQuery,
      checkConnection_open _ d _ db hdb hopen, SqlConnectionHandler.doQeury, hexec, hprobe]
  · simp [SqlConnection.query, SqlConnectionHandler.doQeuryWithArgs, SqlConnectionHandler.doQuery,
      checkConnection_open _ d _ db hdb hopen, SqlConnectionHandler.doQeury, hexec, hprobe]
  · simp [SqlConnection.query, SqlConnectionHandler.doQeuryWithArgs, SqlConnectionHandler.doQuery,
      checkConnection_open _ d _ db hdb hopen, SqlConnectionHandler.doQeury, hexec, hprobe,
      handlesReleased, DriverCall.isRemoveDatabase]

/-- C3 on a worker whose handle was opened at time `0`, with a rejected
statement at time `5` and a further call at time `6`. -/
theorem C3_probe_disambiguation_witness :
    (sampleOpenWorker.query (driverBadStatement 5) "SELEC 1" (QueryArgs.map none)).isOk = false
    ∧ (sampleOpenWorker.query (driverBadStatement 5) "SELEC 1" (QueryArgs.map none)).result.error
        = errStatement
    ∧ (sampleOpenWorker.query (driverBadStatement 5) "SELEC 1"
        (QueryArgs.map none)).conn.m_handler.m_handler = some sampleOpenHandle
    ∧ handlesReleased
        (sampleOpenWorker.query (driverBadStatement 5) "SELEC 1" (QueryArgs.map none)).calls = 0
    ∧ openAttempts
        (sampleOpenWorker.query (driverBadStatement 5) "SELEC 1" (QueryArgs.map none)).calls = 0
    ∧ openAttempts ((sampleOpenWorker.query (driverBadStatement 5) "SELEC 1"
        (QueryArgs.map none)).conn.query (driverDown 6) "SELECT * FROM test"
          (QueryArgs.map none)).calls = 0
    ∧ handlesCreated ((sampleOpenWorker.query (driverBadStatement 5) "SELEC 1"
        (QueryArgs.map none)).conn.query (driverDown 6) "SELECT * FROM test"
          (QueryArgs.map none)).calls = 0 :=
  C3_probe_disambiguation sampleOpenWorker sampleOpenHandle (driverBadStatement 5) (driverDown 6)
    "SELEC 1" "SELECT * FROM test" (QueryArgs.map none) (QueryArgs.map none)
    (by decide) (by decide) (by decide) (by decide)

/-- The open attempts and the handles created during `doQuery` are those of its
health check. -/
theorem doQuery_calls (h : SqlConnectionHandler) (d : Driver) (sql : String) (args : QueryArgs)
    (result : SqlResultPrivate) :
    openAttempts (h.doQuery d sql args result).calls
        = openAttempts (h.checkConnection d result.error).calls
    ∧ handlesCreated (h.doQuery d sql args result).calls
        = handlesCreated (h.checkConnection d result.error).calls := by
  simp only [SqlConnectionHandler.doQuery, SqlConnectionHandler.doQeury,
    SqlConnectionHandler.releaseHandler]
  cases (h.checkConnection d result.error).ret <;>
  cases (d.exec (prepareArgs (QSqlQuery.prepare sql) args)).1 <;>
  cases (d.execSql (d.exec (prepareArgs (QSqlQuery.prepare sql) args)).2
      (h.checkConnection d result.error).handler.m_testSql).1 <;>
  cases (h.checkConnection d result.error).handler.m_handler <;>
  simp [openAttempts, handlesCreated, DriverCall.isOpen, DriverCall.isAddDatabase, List.countP_append]

/-- When the health check fails, `doQuery` returns its outputs at once. -/
theorem doQuery_of_check_failed (h : SqlConnectionHandler) (d : Driver) (sql : String)
    (args : QueryArgs) (result : SqlResultPrivate)
    (hret : (h.checkConnection d result.error).ret = false) :
    (h.doQuery d sql args result).isOk = false
    ∧ (h.doQuery d sql args result).result.error = (h.checkConnection d result.error).err
    ∧ (h.doQuery d sql args result).handler = (h.checkConnection d result.error).handler := by
  simp [SqlConnectionHandler.doQuery, hret]

/-- When the health check succeeds, `doQuery` returns the outputs of `doQeury`. -/
theorem doQuery_of_check_ok (h : SqlConnectionHandler) (d : Driver) (sql : String)
    (args : QueryArgs) (result : SqlResultPrivate)
    (hret : (h.checkConnection d result.error).ret = true) :
    (h.doQuery d sql args result).isOk
        = ((h.checkConnection d result.error).handler.doQeury d
            (prepareArgs (QSqlQuery.prepare sql) args)
            { result with error := (h.checkConnection d result.error).err }).isOk
    ∧ (h.doQuery d sql args result).result
        = ((h.checkConnection d result.error).handler.doQeury d
            (prepareArgs (QSqlQuery.prepare sql) args)
            { result with error := (h.checkConnection d result.error).err }).result := by
  simp only [SqlConnectionHandler.doQuery, hret]
  constructor <;> split_ifs <;> first | rfl | simp_all

/-- C9: on a worker with an open handle, a call whose statement fails and whose
probe statement fails too returns `ok = false` with the error of the probe, and
the handle is torn down and absent afterwards, the rest of the worker state
being as before; the next call on that worker creates a new handle, and it
attempts to open it exactly when the throttle does not apply, the throttled call
returning `ok = false` without an open attempt. -/
theorem C9_connection_lost (c : SqlConnection) (db : QSqlDatabase) (d dNext : Driver)
    (sql sqlNext : String) (args argsNext : QueryArgs)
    (hdb : c.m_handler.m_handler = some db) (hopen : db.isOpen = true)
    (hexec : (d.exec (prepareArgs (QSqlQuery.prepare sql) args)).1 = false)
    (hprobe : (d.execSql (d.exec (prepareArgs (QSqlQuery.prepare sql) args)).2
      c.m_handler.m_testSql).1 = false) :
    (c.query d sql args).isOk = false
    ∧ (c.query d sql args).result.error
        = (d.execSql (d.exec (prepareArgs (QSqlQuery.prepare sql) args)).2
            c.m_handler.m_testSql).2.lastError
    ∧ (c.query d sql args).conn.m_handler.m_handler = none
    ∧ handlesReleased (c.query d sql args).calls = 1
    ∧ (c.query d sql args).conn.m_handler.m_lastOpenTime = c.m_handler.m_lastOpenTime
    ∧ (c.query d sql args).conn.m_handler.m_autoOpenInterval = c.m_handler.m_autoOpenInterval
    ∧ handlesCreated ((c.query d sql args).conn.query dNext sqlNext argsNext).calls = 1
    ∧ ((∃ t0, c.m_handler.m_lastOpenTime = some t0
          ∧ dNext.currentDateTime < t0 + (c.m_handler.m_autoOpenInterval : Int)) →
        openAttempts ((c.query d sql args).conn.query dNext sqlNext argsNext).calls = 0
        ∧ ((c.query d sql args).conn.query dNext sqlNext argsNext).isOk = false)
    ∧ (¬ (∃ t0, c.m_handler.m_lastOpenTime = some t0
          ∧ dNext.currentDateTime < t0 + (c.m_handler.m_autoOpenInterval : Int)) →
        openAttempts ((c.query d sql args).conn.query dNext sqlNext argsNext).calls = 1) := by
  have hq : (c.query d sql args).conn
      = { c with m_handler := { c.m_handler with m_handler := none } } := by
    simp [SqlConnection.query, SqlConnectionHandler.doQeuryWithArgs, SqlConnectionHandler.doQuery,
      checkConnection_open _ d _ db hdb hopen, SqlConnectionHandler.doQeury, hexec, hprobe,
      SqlConnectionHandler.releaseHandler, hdb]
  have hclosed : ∀ x, ({ c.m_handler with m_handler := none } : SqlConnectionHandler).m_handler
      = some x → x.isOpen = false := by
    intro x hx
    simp at hx
  rw [hq]
  refine ⟨?_, ?_, rfl, ?_, rfl, rfl, ?_, ?_, ?_⟩
  · simp [SqlConnection.query, SqlConnectionHandler.doQeuryWithArgs, SqlConnectionHandler.doQuery,
      checkConnection_open _ d _ db hdb hopen, SqlConnectionHandler.doQeury, hexec, hprobe]
  · simp [SqlConnection.query, SqlConnectionHandler.doQeuryWithArgs, SqlConnectionHandler.doQuery,
      checkConnection_open _ d _ db hdb hopen, SqlConnectionHandler.doQeury, hexec, hprobe]
  · simp [SqlConnection.query, SqlConnectionHandler.doQeuryWithArgs, SqlConnectionHandler.doQuery,
      checkConnection_open _ d _ db hdb hopen, SqlConnectionHandler.doQeury, hexec, hprobe,
      SqlConnectionHandler.releaseHandler, hdb, handlesReleased, DriverCall.isRemoveDatabase]
  · simp only [SqlConnection.query, SqlConnectionHandler.doQeuryWithArgs]
    rw [(doQuery_calls _ dNext sqlNext argsNext SqlResultPrivate.fresh).2]
    by_cases hthr : ∃ t0, c.m_handler.m_lastOpenTime = some t0
        ∧ dNext.currentDateTime < t0 + (c.m_handler.m_autoOpenInterval : Int)
    · obtain ⟨t0, hl, ht⟩ := hthr
      rw [checkConnection_throttled _ dNext _ t0 hclosed hl ht]
      simp [handlesCreated, DriverCall.isAddDatabase]
    · have hdue : ∀ t0, ({ c.m_handler with m_handler := none } : SqlConnectionHandler).m_lastOpenTime
          = some t0 → t0 + (c.m_handler.m_autoOpenInterval : Int) ≤ dNext.currentDateTime := by
        intro t0 hl
        by_contra hlt
        exact hthr ⟨t0, hl, by omega⟩
      rw [checkConnection_attempt _ dNext _ hclosed hdue]
      split <;> simp [handlesCreated, DriverCall.isAddDatabase, List.countP_cons]
  · rintro ⟨t0, hl, ht⟩
    simp only [SqlConnection.query, SqlConnectionHandler.doQeuryWithArgs]
    have hchk := checkConnection_throttled { c.m_handler with m_handler := none } dNext
      SqlResultPrivate.fresh.error t0 hclosed hl ht
    refine ⟨?_, ?_⟩
    · rw [(doQuery_calls _ dNext sqlNext argsNext SqlResultPrivate.fresh).1, hchk]
      simp [openAttempts, DriverCall.isOpen]
    · exact (doQuery_of_check_failed _ dNext sqlNext argsNext SqlResultPrivate.fresh
        (by rw [hchk])).1
  · intro hthr
    have hdue : ∀ t0, ({ c.m_handler with m_handler := none } : SqlConnectionHandler).m_lastOpenTime
        = some t0 → t0 + (c.m_handler.m_autoOpenInterval : Int) ≤ dNext.currentDateTime := by
      intro t0 hl
      by_contra hlt
      exact hthr ⟨t0, hl, by omega⟩
    simp only [SqlConnection.query, SqlConnectionHandler.doQeuryWithArgs]
    rw [(doQuery_calls _ dNext sqlNext argsNext SqlResultPrivate.fresh).1,
      checkConnection_attempt _ dNext _ hclosed hdue]
    split <;> simp [openAttempts, DriverCall.isOpen, List.countP_cons]

/-- C9 on a worker whose handle was opened at time `0`: the server is gone at
time `5`, and the next call comes at time `6`, inside the throttle window. -/
theorem C9_connection_lost_witness :
    (sampleOpenWorker.query (driverDown 5) "SELECT * FROM test" (QueryArgs.map none)).isOk = false
    ∧ (sampleOpenWorker.query (driverDown 5) "SELECT * FROM test"
        (QueryArgs.map none)).result.error = errGoneAway
    ∧ (sampleOpenWorker.query (driverDown 5) "SELECT * FROM test"
        (QueryArgs.map none)).conn.m_handler.m_handler = none
    ∧ openAttempts ((sampleOpenWorker.query (driverDown 5) "SELECT * FROM test"
        (QueryArgs.map none)).conn.query (driverUp 6) "SELECT * FROM test"
          (QueryArgs.map none)).calls = 0 :=
  have h := C9_connection_lost sampleOpenWorker sampleOpenHandle (driverDown 5) (driverUp 6)
    "SELECT * FROM test" "SELECT * FROM test" (QueryArgs.map none) (QueryArgs.map none)
    (by decide) (by decide) (by decide) (by decide)
  ⟨h.1, h.2.1, h.2.2.1, (h.2.2.2.2.2.2.2.1 ⟨0, by decide, by decide⟩).1⟩

/-- C4: on a worker whose handle is closed or absent and whose last open attempt
was at `t0`, a call at a time `t ≥ t0 + autoOpenInterval` for which the driver
opens the handle and runs the statement makes one open attempt and returns
`ok = true`, with the rows of the result set in the driver's order and with the
driver's last insert id and number of affected rows; the handle is open
afterwards. -/
theorem C4_self_healing (c : SqlConnection) (d : Driver) (sql : String) (args : QueryArgs)
    (t0 : Int)
    (hclosed : ∀ db, c.m_handler.m_handler = some db → db.isOpen = false)
    (hlast : c.m_handler.m_lastOpenTime = some t0)
    (ht : t0 + (c.m_handler.m_autoOpenInterval : Int) ≤ d.currentDateTime)
    (hopen : ∀ db, (d.openDatabase db).1 = true)
    (hexec : (d.exec (prepareArgs (QSqlQuery.prepare sql) args)).1 = true) :
    (c.query d sql args).isOk = true
    ∧ (c.query d sql args).result.records
        = (d.exec (prepareArgs (QSqlQuery.prepare sql) args)).2.rows
    ∧ (c.query d sql args).result.lastInsertId
        = (d.exec (prepareArgs (QSqlQuery.prepare sql) args)).2.lastInsertId
    ∧ (c.query d sql args).result.numRowsAffected
        = (d.exec (prepareArgs (QSqlQuery.prepare sql) args)).2.numRowsAffected
    ∧ openAttempts (c.query d sql args).calls = 1
    ∧ (∃ db, (c.query d sql args).conn.m_handler.m_handler = some db ∧ db.isOpen = true)
    ∧ (c.query d sql args).conn.m_handler.m_lastOpenTime = some d.currentDateTime := by
  have hdue : ∀ t, c.m_handler.m_lastOpenTime = some t →
      t + (c.m_handler.m_autoOpenInterval : Int) ≤ d.currentDateTime := by
    intro t hl
    rw [hlast] at hl
    cases hl
    exact ht
  have hchk := checkConnection_attempt c.m_handler d SqlResultPrivate.fresh.error hclosed hdue
  rw [if_pos (hopen _)] at hchk
  refine ⟨?_, ?_, ?_, ?_, ?_, ?_, ?_⟩
  · simp [SqlConnection.query, SqlConnectionHandler.doQeuryWithArgs, SqlConnectionHandler.doQuery,
      hchk, SqlConnectionHandler.doQeury, hexec]
  · simp only [SqlConnection.query, SqlConnectionHandler.doQeuryWithArgs,
      SqlConnectionHandler.doQuery, hchk, SqlConnectionHandler.doQeury, hexec, fetchRows_eq]
    simp [SqlResultPrivate.fresh]
  · simp [SqlConnection.query, SqlConnectionHandler.doQeuryWithArgs, SqlConnectionHandler.doQuery,
      hchk, SqlConnectionHandler.doQeury, hexec]
  · simp [SqlConnection.query, SqlConnectionHandler.doQeuryWithArgs, SqlConnectionHandler.doQuery,
      hchk, SqlConnectionHandler.doQeury, hexec]
  · simp only [SqlConnection.query, SqlConnectionHandler.doQeuryWithArgs]
    rw [(doQuery_calls _ d sql args SqlResultPrivate.fresh).1, hchk]
    cases c.m_handler.m_handler <;> simp [openAttempts, DriverCall.isOpen, List.countP_cons]
  · simp [SqlConnection.query, SqlConnectionHandler.doQeuryWithArgs, SqlConnectionHandler.doQuery,
      hchk, SqlConnectionHandler.doQeury, hexec]
  · simp [SqlConnection.query, SqlConnectionHandler.doQeuryWithArgs, SqlConnectionHandler.doQuery,
      hchk, SqlConnectionHandler.doQeury, hexec]

/-- C4 on a worker whose open attempt at time `0` failed, called again at time
`10000` with the server back. -/
theorem C4_self_healing_witness :
    (sampleDownWorker.query (driverUp 10000) "SELECT * FROM test" (QueryArgs.map none)).isOk = true
    ∧ (sampleDownWorker.query (driverUp 10000) "SELECT * FROM test"
        (QueryArgs.map none)).result.records = [sampleRow1, sampleRow2]
    ∧ (sampleDownWorker.query (driverUp 10000) "SELECT * FROM test"
        (QueryArgs.map none)).result.lastInsertId = QVariant.int 7
    ∧ (sampleDownWorker.query (driverUp 10000) "SELECT * FROM test"
        (QueryArgs.map none)).result.numRowsAffected = 2 :=
  have h := C4_self_healing sampleDownWorker (driverUp 10000) "SELECT * FROM test"
    (QueryArgs.map none) 0 (by decide) (by decide) (by decide) (fun _ => rfl) (by decide)
  ⟨h.1, h.2.1, h.2.2.1, h.2.2.2.1⟩

/-- C2: if a first call at time `t0` makes an open attempt and the driver's
`open()` fails, then the first call returns `ok = false`, a second call at any
time `t1 < t0 + autoOpenInterval` returns `ok = false` without calling
`open()`, so that the two calls make exactly one open attempt, and a third call
at any time `t2 ≥ t0 + autoOpenInterval` calls `open()` again, once. -/
theorem C2_throttle (c : SqlConnection) (d0 d1 d2 : Driver) (sql0 sql1 sql2 : String)
    (args0 args1 args2 : QueryArgs)
    (hattempt : 1 ≤ openAttempts (c.query d0 sql0 args0).calls)
    (hfail : ∀ db, (d0.openDatabase db).1 = false)
    (ht1 : d1.currentDateTime < d0.currentDateTime + (c.m_handler.m_autoOpenInterval : Int))
    (ht2 : d0.currentDateTime + (c.m_handler.m_autoOpenInterval : Int) ≤ d2.currentDateTime) :
    (c.query d0 sql0 args0).isOk = false
    ∧ ((c.query d0 sql0 args0).conn.query d1 sql1 args1).isOk = false
    ∧ openAttempts ((c.query d0 sql0 args0).conn.query d1 sql1 args1).calls = 0
    ∧ openAttempts (c.query d0 sql0 args0).calls
        + openAttempts ((c.query d0 sql0 args0).conn.query d1 sql1 args1).calls = 1
    ∧ openAttempts ((((c.query d0 sql0 args0).conn.query d1 sql1 args1).conn).query
        d2 sql2 args2).calls = 1 := by
  -- the first call went through the reopen path
  have hclosed : ∀ db, c.m_handler.m_handler = some db → db.isOpen = false := by
    intro db hdb
    cases hb : db.isOpen with
    | false => rfl
    | true =>
      have := (query_open_calls c db d0 sql0 args0 hdb hb).1
      omega
  have hdue : ∀ t, c.m_handler.m_lastOpenTime = some t →
      t + (c.m_handler.m_autoOpenInterval : Int) ≤ d0.currentDateTime := by
    intro t hl
    by_contra hlt
    have hchk := checkConnection_throttled c.m_handler d0 SqlResultPrivate.fresh.error t hclosed hl
      (by omega)
    have h0 : openAttempts (c.query d0 sql0 args0).calls = 0 := by
      simp only [SqlConnection.query, SqlConnectionHandler.doQeuryWithArgs]
      rw [(doQuery_calls _ d0 sql0 args0 SqlResultPrivate.fresh).1, hchk]
      split <;> simp [openAttempts, DriverCall.isOpen]
    omega
  have hchk0 := checkConnection_attempt c.m_handler d0 SqlResultPrivate.fresh.error hclosed hdue
  rw [if_neg (by simp [hfail])] at hchk0
  have hq0 := doQuery_of_check_failed c.m_handler d0 sql0 args0 SqlResultPrivate.fresh
    (by rw [hchk0])
  have hconn0 : (c.query d0 sql0 args0).conn
      = { c with m_handler := { c.m_handler with m_handler := none,
                                                 m_lastOpenTime := some d0.currentDateTime } } := by
    simp only [SqlConnection.query, SqlConnectionHandler.doQeuryWithArgs]
    rw [hq0.2.2, hchk0]
  have hopens0 : openAttempts (c.query d0 sql0 args0).calls = 1 := by
    simp only [SqlConnection.query, SqlConnectionHandler.doQeuryWithArgs]
    rw [(doQuery_calls _ d0 sql0 args0 SqlResultPrivate.fresh).1, hchk0]
    split <;> simp [openAttempts, DriverCall.isOpen, List.countP_cons]
  -- the second call is throttled
  have hchk1 := checkConnection_throttled
    { c.m_handler with m_handler := none, m_lastOpenTime := some d0.currentDateTime } d1
    SqlResultPrivate.fresh.error d0.currentDateTime (by intro x hx; simp at hx) rfl ht1
  have hq1 := doQuery_of_check_failed
    { c.m_handler with m_handler := none, m_lastOpenTime := some d0.currentDateTime }
    d1 sql1 args1 SqlResultPrivate.fresh (by rw [hchk1])
  have hopens1 : openAttempts ((c.query d0 sql0 args0).conn.query d1 sql1 args1).calls = 0 := by
    rw [hconn0]
    simp only [SqlConnection.query, SqlConnectionHandler.doQeuryWithArgs]
    rw [(doQuery_calls _ d1 sql1 args1 SqlResultPrivate.fresh).1, hchk1]
    simp [openAttempts, DriverCall.isOpen]
  have hconn1 : ((c.query d0 sql0 args0).conn.query d1 sql1 args1).conn.m_handler
      = { c.m_handler with
            m_handler := some (SqlConnectionHandler.initHandler
              { c.m_handler with m_handler := none, m_lastOpenTime := some d0.currentDateTime } d1)
            m_lastOpenTime := some d0.currentDateTime } := by
    rw [hconn0]
    simp only [SqlConnection.query, SqlConnectionHandler.doQeuryWithArgs]
    rw [hq1.2.2, hchk1]
    simp
  refine ⟨?_, ?_, hopens1, by omega, ?_⟩
  · simpa [SqlConnection.query, SqlConnectionHandler.doQeuryWithArgs] using hq0.1
  · rw [hconn0]
    simpa [SqlConnection.query, SqlConnectionHandler.doQeuryWithArgs] using hq1.1
  · -- the third call goes through the reopen path again
    simp only [SqlConnection.query, SqlConnectionHandler.doQeuryWithArgs] at hconn1 ⊢
    rw [(doQuery_calls _ d2 sql2 args2 SqlResultPrivate.fresh).1, hconn1,
      checkConnection_attempt _ d2 _
        (by intro x hx
            simp only [Option.some.injEq] at hx
            subst hx
            rfl)
        (by intro t hl
            simp only [Option.some.injEq] at hl
            subst hl
            exact ht2)]
    split <;> simp [openAttempts, DriverCall.isOpen, List.countP_cons]

/-- C2 on a new worker with the default interval of 10000 ms: calls at times
`0`, `9999` and `10000` against an unreachable server. -/
theorem C2_throttle_witness :
    (sampleWorker.query (driverDown 0) "SELECT * FROM test" (QueryArgs.map none)).isOk = false
    ∧ ((sampleWorker.query (driverDown 0) "SELECT * FROM test" (QueryArgs.map none)).conn.query
        (driverDown 9999) "SELECT * FROM test" (QueryArgs.map none)).isOk = false
    ∧ openAttempts ((sampleWorker.query (driverDown 0) "SELECT * FROM test"
        (QueryArgs.map none)).conn.query (driverDown 9999) "SELECT * FROM test"
          (QueryArgs.map none)).calls = 0
    ∧ openAttempts (sampleWorker.query (driverDown 0) "SELECT * FROM test"
        (QueryArgs.map none)).calls
        + openAttempts ((sampleWorker.query (driverDown 0) "SELECT * FROM test"
            (QueryArgs.map none)).conn.query (driverDown 9999) "SELECT * FROM test"
              (QueryArgs.map none)).calls = 1
    ∧ openAttempts ((((sampleWorker.query (driverDown 0) "SELECT * FROM test"
        (QueryArgs.map none)).conn.query (driverDown 9999) "SELECT * FROM test"
          (QueryArgs.map none)).conn).query (driverDown 10000) "SELECT * FROM test"
            (QueryArgs.map none)).calls = 1 :=
  C2_throttle sampleWorker (driverDown 0) (driverDown 9999) (driverDown 10000)
    "SELECT * FROM test" "SELECT * FROM test" "SELECT * FROM test"
    (QueryArgs.map none) (QueryArgs.map none) (QueryArgs.map none)
    (by decide) (fun _ => rfl) (by decide) (by decide)

/-- C10, as stated, fails: the worker whose open attempt at time `0` failed has
no handle, and its health check at time `5`, inside the interval of 10000 ms,
creates a handle and returns `false` without any open attempt. -/
theorem C10_counterexample :
    sampleDownWorker.m_handler.m_handler = none
    ∧ sampleDownWorker.m_handler.m_lastOpenTime = some 0
    ∧ (sampleDownWorker.m_handler.checkConnection (driverUp 5) QSqlError.none).ret = false
    ∧ openAttempts
        (sampleDownWorker.m_handler.checkConnection (driverUp 5) QSqlError.none).calls = 0 := by
  decide

/-- C10, amended: in every worker state in which the native handle is absent,
`checkConnection` creates a new handle and makes an open attempt exactly when
the throttle does not apply, that is when `m_lastOpenTime` is not set or the
current time is at least `m_lastOpenTime + m_autoOpenInterval`; when the
throttle applies it makes no open attempt and returns `false`.  A worker whose
handle was never opened is not throttled, whatever the interval. -/
theorem C10_absent_handle (h : SqlConnectionHandler) (d : Driver) (err : QSqlError)
    (hnone : h.m_handler = none) :
    handlesCreated (h.checkConnection d err).calls = 1
    ∧ (openAttempts (h.checkConnection d err).calls = 1 ↔
        ∀ t0, h.m_lastOpenTime = some t0 →
          t0 + (h.m_autoOpenInterval : Int) ≤ d.currentDateTime)
    ∧ ((openAttempts (h.checkConnection d err).calls = 0
          ∧ (h.checkConnection d err).ret = false) ↔
        ∃ t0, h.m_lastOpenTime = some t0
          ∧ d.currentDateTime < t0 + (h.m_autoOpenInterval : Int))
    ∧ (h.m_lastOpenTime = none → openAttempts (h.checkConnection d err).calls = 1) := by
  have hclosed : ∀ db, h.m_handler = some db → db.isOpen = false := by
    intro db hdb
    rw [hnone] at hdb
    cases hdb
  have hA : (∀ t0, h.m_lastOpenTime = some t0 →
        t0 + (h.m_autoOpenInterval : Int) ≤ d.currentDateTime) →
      openAttempts (h.checkConnection d err).calls = 1
      ∧ handlesCreated (h.checkConnection d err).calls = 1 := by
    intro hdue
    rw [checkConnection_attempt h d err hclosed hdue]
    split <;>
    simp [hnone, openAttempts, handlesCreated, DriverCall.isOpen, DriverCall.isAddDatabase,
      List.countP_cons]
  have hB : ∀ t0, h.m_lastOpenTime = some t0 →
      d.currentDateTime < t0 + (h.m_autoOpenInterval : Int) →
      openAttempts (h.checkConnection d err).calls = 0
      ∧ (h.checkConnection d err).ret = false
      ∧ handlesCreated (h.checkConnection d err).calls = 1 := by
    intro t0 hl ht
    rw [checkConnection_throttled h d err t0 hclosed hl ht]
    simp [hnone, openAttempts, handlesCreated, DriverCall.isOpen, DriverCall.isAddDatabase]
  by_cases hdue : ∀ t0, h.m_lastOpenTime = some t0 →
      t0 + (h.m_autoOpenInterval : Int) ≤ d.currentDateTime
  · have hthr : ¬ ∃ t0, h.m_lastOpenTime = some t0
        ∧ d.currentDateTime < t0 + (h.m_autoOpenInterval : Int) := by
      rintro ⟨t0, hl, ht⟩
      have := hdue t0 hl
      omega
    refine ⟨(hA hdue).2, ⟨fun _ => hdue, fun _ => (hA hdue).1⟩, ⟨?_, fun hx => absurd hx hthr⟩,
      fun _ => (hA hdue).1⟩
    rintro ⟨h0, _⟩
    have := (hA hdue).1
    omega
  · have hthr : ∃ t0, h.m_lastOpenTime = some t0
        ∧ d.currentDateTime < t0 + (h.m_autoOpenInterval : Int) := by
      push_neg at hdue
      exact hdue
    obtain ⟨t0, hl, ht⟩ := hthr
    have hb := hB t0 hl ht
    refine ⟨hb.2.2, ⟨?_, fun hx => absurd hx hdue⟩, ⟨fun _ => ⟨t0, hl, ht⟩, fun _ => ⟨hb.1, hb.2.1⟩⟩,
      ?_⟩
    · intro h1
      have := hb.1
      omega
    · intro hn
      rw [hl] at hn
      cases hn

/-- C10, amended, on the worker whose open attempt at time `0` failed: its
health check at time `10000` creates a handle and attempts to open it. -/
theorem C10_absent_handle_witness :
    handlesCreated
        (sampleDownWorker.m_handler.checkConnection (driverUp 10000) QSqlError.none).calls = 1
    ∧ openAttempts
        (sampleDownWorker.m_handler.checkConnection (driverUp 10000) QSqlError.none).calls = 1 :=
  have h := C10_absent_handle sampleDownWorker.m_handler (driverUp 10000) QSqlError.none
    (by decide)
  ⟨h.1, h.2.1.2 (by
    intro t0 ht0
    have h0 : sampleDownWorker.m_handler.m_lastOpenTime = some 0 := by decide
    rw [h0] at ht0
    cases ht0
    decide)⟩

/-- Outside the throttled path, a failed `doQuery` carries an actual error of a
driver that reports its errors. -/
theorem doQuery_error_populated (h : SqlConnectionHandler) (d : Driver) (sql : String)
    (args : QueryArgs) (result : SqlResultPrivate) (hd : d.reportsErrors)
    (hpath : (∃ db, h.m_handler = some db ∧ db.isOpen = true)
      ∨ ∀ t0, h.m_lastOpenTime = some t0 →
          t0 + (h.m_autoOpenInterval : Int) ≤ d.currentDateTime)
    (hfail : (h.doQuery d sql args result).isOk = false) :
    (h.doQuery d sql args result).result.error.isValid = true := by
  obtain ⟨hdo, hde, hdp⟩ := hd
  have hrun : ∀ (h1 : SqlConnectionHandler) (r1 : SqlResultPrivate),
      (h1.doQeury d (prepareArgs (QSqlQuery.prepare sql) args) r1).isOk = false →
      (h1.doQeury d (prepareArgs (QSqlQuery.prepare sql) args) r1).result.error.isValid = true := by
    intro h1 r1 hf
    simp only [SqlConnectionHandler.doQeury] at hf ⊢
    cases he : (d.exec (prepareArgs (QSqlQuery.prepare sql) args)).1 with
    | true => simp [he] at hf
    | false =>
      cases hp : (d.execSql (d.exec (prepareArgs (QSqlQuery.prepare sql) args)).2
          h1.m_testSql).1 with
      | true => simpa [he, hp] using hde _ he
      | false => simpa [he, hp] using hdp _ _ hp
  cases hret : (h.checkConnection d result.error).ret with
  | true =>
    have hok := doQuery_of_check_ok h d sql args result hret
    rw [hok.1] at hfail
    rw [hok.2]
    exact hrun _ _ hfail
  | false =>
    rw [(doQuery_of_check_failed h d sql args result hret).2.1]
    by_cases hopen : ∃ db, h.m_handler = some db ∧ db.isOpen = true
    · obtain ⟨db, hdb, ho⟩ := hopen
      rw [checkConnection_open h d _ db hdb ho] at hret
      simp at hret
    · have hclosed : ∀ db, h.m_handler = some db → db.isOpen = false := by
        intro db hdb
        cases hb : db.isOpen with
        | false => rfl
        | true => exact absurd ⟨db, hdb, hb⟩ hopen
      have hdue := hpath.resolve_left hopen
      rw [checkConnection_attempt h d result.error hclosed hdue] at hret ⊢
      cases ho : (d.openDatabase (h.m_handler.getD (h.initHandler d))).1 with
      | false => simpa [ho] using hdo _ ho
      | true => simp [ho] at hret

/-- C6 fails on the throttled path: against an unreachable server whose driver
reports an error with every failed operation, the first call of a new worker
returns `ok = false` with the error of the failed `open()`, and the second
call, less than the interval later, returns `ok = false` without an open
attempt and with the empty error of the handle it has just created. -/
theorem C6_throttled_error_empty :
    (driverDown 0).reportsErrors ∧ (driverDown 5).reportsErrors
    ∧ (sampleWorker.query (driverDown 0) "SELECT * FROM test" (QueryArgs.map none)).isOk = false
    ∧ (sampleWorker.query (driverDown 0) "SELECT * FROM test"
        (QueryArgs.map none)).result.error = errConnect
    ∧ ((sampleWorker.query (driverDown 0) "SELECT * FROM test" (QueryArgs.map none)).conn.query
        (driverDown 5) "SELECT * FROM test" (QueryArgs.map none)).isOk = false
    ∧ openAttempts ((sampleWorker.query (driverDown 0) "SELECT * FROM test"
        (QueryArgs.map none)).conn.query (driverDown 5) "SELECT * FROM test"
          (QueryArgs.map none)).calls = 0
    ∧ ((sampleWorker.query (driverDown 0) "SELECT * FROM test" (QueryArgs.map none)).conn.query
        (driverDown 5) "SELECT * FROM test" (QueryArgs.map none)).result.error = QSqlError.none
    ∧ ((sampleWorker.query (driverDown 0) "SELECT * FROM test" (QueryArgs.map none)).conn.query
        (driverDown 5) "SELECT * FROM test" (QueryArgs.map none)).result.error.isValid = false := by
  have hrep : ∀ now, (driverDown now).reportsErrors := by
    intro now
    exact ⟨fun _ _ => rfl, fun _ _ => rfl, fun _ _ _ => rfl⟩
  exact ⟨hrep 0, hrep 5, by decide, by decide, by decide, by decide, by decide, by decide⟩

end SqlPool
